import Mathlib

/-!
Shallow embedding of the Cynova REST backend (Express + Joi + Prisma controllers)
for the product / ingredient / user / blog resources, together with proofs about
its request-validation, filtering, pagination, error-mapping and authentication
behaviour.

Modelling conventions:
* Request/response JSON values are `JValue`; JSON objects are association lists.
* The Joi validation layer is embedded with its documented default options
  (`abortEarly = true`, `allowUnknown = false`, `convert` coercions elided since
  payloads arrive JSON-typed); exact violation message texts are abbreviated,
  which no controller inspects.
* The Prisma table is a list of records; `findMany`/`count`/`create`/`update`/
  `delete` are embedded directly.  Generated ids and creation timestamps are
  passed as explicit parameters; timestamps are not echoed in response JSON.
* Express query-string parameters are `Option String` (absent = `none`) where
  the source compares them as strings, and already-parsed numbers where the
  source immediately applies `parseInt`/`parseFloat` to a truthy parameter.
* bcrypt is modelled abstractly: a hash is recognised exactly by the password
  it was derived from.
-/

namespace Cynova

/-- A JSON number, kept as an explicit fraction `num / den` (constructed with
`den ≠ 0` throughout).  All arithmetic the backend performs on numbers is
comparison, integrality testing and two-decimal rounding, implemented below
directly on the fraction. -/
structure JNum where
  num : Int
  den : Nat
deriving DecidableEq, Repr

/-- Embed an integer as a JSON number. -/
def JNum.ofInt (n : Int) : JNum := ⟨n, 1⟩

/-- Comparison `a ≤ b` of JSON numbers by cross-multiplication. -/
def JNum.leJ (a b : JNum) : Bool := decide (a.num * b.den ≤ b.num * a.den)

/-- Comparison `m ≤ a` against an integer bound. -/
def intLeJNum (m : Int) (a : JNum) : Bool := decide (m * a.den ≤ a.num)

/-- Comparison `a ≤ m` against an integer bound. -/
def jNumLeInt (a : JNum) (m : Int) : Bool := decide (a.num ≤ m * a.den)

/-- Strict positivity of a JSON number. -/
def JNum.pos (a : JNum) : Bool := decide (0 < a.num)

/-- Whether a JSON number is an integer. -/
def JNum.isInt (a : JNum) : Bool := a.num % (a.den : Int) == 0

/-- Round a JSON number to two decimal places:
`floor(100·q + 1/2) / 100` (Joi `precision(2)` converts by rounding). -/
def JNum.round2 (a : JNum) : JNum :=
  ⟨Int.fdiv (200 * a.num + a.den) (2 * a.den), 100⟩

/-- JSON values as delivered by `express.json()`. -/
inductive JValue where
  | jnull : JValue
  | jstr : String → JValue
  | jnum : JNum → JValue
  | jbool : Bool → JValue
deriving DecidableEq, Repr

/-- A JSON object: an association list from keys to values. -/
abbrev JObject := List (String × JValue)

/-- Look a key up in a JSON object (first occurrence). -/
def lookupField (o : JObject) (k : String) : Option JValue :=
  (o.find? (fun kv => kv.1 == k)).map (fun kv => kv.2)

/-- JavaScript truthiness of an optional query-string parameter:
`undefined` and the empty string are falsy, every other string is truthy. -/
def jsTruthy : Option String → Bool
  | none => false
  | some s => !s.isEmpty

/-- Decide whether the first list is a prefix of the second. -/
def isPrefixOfL : List Char → List Char → Bool
  | [], _ => true
  | _ :: _, [] => false
  | a :: as, b :: bs => a == b && isPrefixOfL as bs

/-- Decide whether `pat` occurs as a contiguous sublist. -/
def containsSubL (pat : List Char) : List Char → Bool
  | [] => pat.isEmpty
  | c :: cs => isPrefixOfL pat (c :: cs) || containsSubL pat cs

/-- Substring containment, the semantics of Prisma `contains` on SQLite here. -/
def strContains (s pat : String) : Bool := containsSubL pat.data s.data

/-- One Joi field rule: key, type/constraint normaliser, requiredness, default. -/
structure FieldRule where
  key : String
  norm : JValue → Option JValue
  required : Bool
  dflt : Option JValue

/-- Joi `string().min(lo).max(hi)`; Joi strings reject the empty string by
default, hence the callers always pass `lo ≥ 1`. -/
def normStr (lo : Nat) (hi : Option Nat) : JValue → Option JValue
  | .jstr s =>
    if decide (lo ≤ s.length) &&
       (match hi with | none => true | some h => decide (s.length ≤ h)) then
      some (.jstr s)
    else none
  | _ => none

/-- Joi `string().valid(...)`: membership in a closed enum. -/
def normEnum (allowed : List String) : JValue → Option JValue
  | .jstr s => if allowed.contains s then some (.jstr s) else none
  | _ => none

/-- Joi `boolean()` on a JSON-typed payload. -/
def normBool : JValue → Option JValue
  | .jbool b => some (.jbool b)
  | _ => none

/-- Joi `number().positive().precision(2)`. -/
def normPrix : JValue → Option JValue
  | .jnum q => if q.pos then some (.jnum q.round2) else none
  | _ => none

/-- Joi `number().integer().min(lo).max(hi)`. -/
def normInt (lo hi : Option Int) : JValue → Option JValue
  | .jnum q =>
    if q.isInt &&
       (match lo with | none => true | some a => intLeJNum a q) &&
       (match hi with | none => true | some b => jNumLeInt q b) then
      some (.jnum q)
    else none
  | _ => none

/-- Joi `string().email()`, abstracted to the claim-irrelevant shape check that
the string is nonempty and mentions an at-sign. -/
def normEmail : JValue → Option JValue
  | .jstr s =>
    if decide (1 ≤ s.length) && s.data.any (fun c => c == '@') then some (.jstr s)
    else none
  | _ => none

/-- Joi `string().uri()`, abstracted to presence of a scheme separator; no
claim depends on the precise URI grammar. -/
def normUri : JValue → Option JValue
  | .jstr s =>
    if decide (1 ≤ s.length) && strContains s "://" then some (.jstr s)
    else none
  | _ => none

/-- Process one field rule against the input: a present field is normalised,
an absent required field is a violation, an absent optional field contributes
its default when one is declared and nothing otherwise. -/
def applyRule (ru : FieldRule) (input : JObject) : Except String (Option (String × JValue)) :=
  match lookupField input ru.key with
  | some v =>
    match ru.norm v with
    | none => .error ("\"" ++ ru.key ++ "\" is invalid")
    | some v2 => .ok (some (ru.key, v2))
  | none =>
    if ru.required then .error ("\"" ++ ru.key ++ "\" is required")
    else
      match ru.dflt with
      | some d => .ok (some (ru.key, d))
      | none => .ok none

/-- Validate the known fields of an input object against a rule list, in rule
order, stopping at the first violation (Joi default `abortEarly`). -/
def validateRules : List FieldRule → JObject → Except String JObject
  | [], _ => .ok []
  | ru :: rest, input =>
    match applyRule ru input with
    | .error e => .error e
    | .ok none => validateRules rest input
    | .ok (some kv) =>
      match validateRules rest input with
      | .error e => .error e
      | .ok o => .ok (kv :: o)

/-- Joi default `allowUnknown = false`: a key of the input that matches no rule
is a violation. -/
def checkUnknown (rules : List FieldRule) (input : JObject) : Option String :=
  match input.find? (fun kv => !(rules.any (fun ru => ru.key == kv.1))) with
  | some kv => some ("\"" ++ kv.1 ++ "\" is not allowed")
  | none => none

/-- The `schema.validate(req.body)` call: reject unknown keys, then validate
the declared fields; on success return the normalised, defaulted object. -/
def joiValidate (rules : List FieldRule) (input : JObject) : Except String JObject :=
  match checkUnknown rules input with
  | some e => .error e
  | none => validateRules rules input

/-- Closed category enum of `produitSchema`. -/
def produitCategories : List String :=
  ["shampoing", "savon", "crème", "huile", "masque", "gommage"]

/-- Closed category enum of `blogSchema`. -/
def blogCategories : List String :=
  ["ingrédients", "conseils", "DIY", "santé", "recettes"]

/-- The `produitSchema` Joi object of the product controller. -/
def produitSchema : List FieldRule :=
  [⟨"nom", normStr 2 (some 100), true, none⟩,
   ⟨"description", normStr 10 (some 500), true, none⟩,
   ⟨"prix", normPrix, true, none⟩,
   ⟨"categorie", normEnum produitCategories, true, none⟩,
   ⟨"ingredientIds", normStr 1 none, false, some (.jstr "[]")⟩,
   ⟨"bienfaits", normStr 1 none, false, some (.jstr "[]")⟩,
   ⟨"quantiteIds", normStr 1 none, false, some (.jstr "[]")⟩,
   ⟨"yukaScore", normInt (some 0) (some 100), false, none⟩,
   ⟨"provenance", normStr 1 (some 50), false, none⟩,
   ⟨"stock", normInt (some 0) none, true, none⟩,
   ⟨"blogIds", normStr 1 none, false, some (.jstr "[]")⟩,
   ⟨"imageUrl", normUri, false, none⟩,
   ⟨"actif", normBool, false, some (.jbool true)⟩]

/-- The `updateProduitSchema` Joi object: all fields optional, no defaults. -/
def updateProduitSchema : List FieldRule :=
  [⟨"nom", normStr 2 (some 100), false, none⟩,
   ⟨"description", normStr 10 (some 500), false, none⟩,
   ⟨"prix", normPrix, false, none⟩,
   ⟨"categorie", normEnum produitCategories, false, none⟩,
   ⟨"ingredientIds", normStr 1 none, false, none⟩,
   ⟨"bienfaits", normStr 1 none, false, none⟩,
   ⟨"quantiteIds", normStr 1 none, false, none⟩,
   ⟨"yukaScore", normInt (some 0) (some 100), false, none⟩,
   ⟨"provenance", normStr 1 (some 50), false, none⟩,
   ⟨"stock", normInt (some 0) none, false, none⟩,
   ⟨"blogIds", normStr 1 none, false, none⟩,
   ⟨"imageUrl", normUri, false, none⟩,
   ⟨"actif", normBool, false, none⟩]

/-- The `ingredientSchema` Joi object of the ingredient controller. -/
def ingredientSchema : List FieldRule :=
  [⟨"nom", normStr 2 (some 100), true, none⟩,
   ⟨"origine", normStr 1 (some 50), false, none⟩,
   ⟨"description", normStr 1 (some 500), false, none⟩,
   ⟨"bio", normBool, false, some (.jbool false)⟩,
   ⟨"allergene", normBool, false, some (.jbool false)⟩,
   ⟨"produitId", normStr 1 none, false, none⟩]

/-- The `updateIngredientSchema` Joi object: all fields optional, no defaults. -/
def updateIngredientSchema : List FieldRule :=
  [⟨"nom", normStr 2 (some 100), false, none⟩,
   ⟨"origine", normStr 1 (some 50), false, none⟩,
   ⟨"description", normStr 1 (some 500), false, none⟩,
   ⟨"bio", normBool, false, none⟩,
   ⟨"allergene", normBool, false, none⟩,
   ⟨"produitId", normStr 1 none, false, none⟩]

/-- The `utilisateurSchema` Joi object of the user controller. -/
def utilisateurSchema : List FieldRule :=
  [⟨"email", normEmail, true, none⟩,
   ⟨"motDePasse", normStr 8 none, true, none⟩,
   ⟨"nom", normStr 1 (some 100), false, none⟩,
   ⟨"prenom", normStr 1 (some 100), false, none⟩,
   ⟨"role", normEnum ["ADMIN", "USER"], false, some (.jstr "USER")⟩,
   ⟨"adresse", normStr 1 (some 200), false, none⟩,
   ⟨"telephone", normStr 1 (some 20), false, none⟩,
   ⟨"newsletter", normBool, false, some (.jbool false)⟩]

/-- The `updateUtilisateurSchema` Joi object: all fields optional, no defaults. -/
def updateUtilisateurSchema : List FieldRule :=
  [⟨"email", normEmail, false, none⟩,
   ⟨"motDePasse", normStr 8 none, false, none⟩,
   ⟨"nom", normStr 1 (some 100), false, none⟩,
   ⟨"prenom", normStr 1 (some 100), false, none⟩,
   ⟨"role", normEnum ["ADMIN", "USER"], false, none⟩,
   ⟨"adresse", normStr 1 (some 200), false, none⟩,
   ⟨"telephone", normStr 1 (some 20), false, none⟩,
   ⟨"newsletter", normBool, false, none⟩]

/-- The `blogSchema` Joi object of the blog controller. -/
def blogSchema : List FieldRule :=
  [⟨"titre", normStr 5 (some 200), true, none⟩,
   ⟨"contenu", normStr 50 (some 10000), true, none⟩,
   ⟨"categorie", normEnum blogCategories, true, none⟩,
   ⟨"auteur", normStr 1 (some 100), false, some (.jstr "Équipe Cynova")⟩,
   ⟨"imageUrl", normUri, false, none⟩,
   ⟨"produitIds", normStr 1 none, false, some (.jstr "[]")⟩,
   ⟨"tags", normStr 1 none, false, some (.jstr "[]")⟩,
   ⟨"publie", normBool, false, some (.jbool true)⟩]

/-- The `updateBlogSchema` Joi object: all fields optional, no defaults. -/
def updateBlogSchema : List FieldRule :=
  [⟨"titre", normStr 5 (some 200), false, none⟩,
   ⟨"contenu", normStr 50 (some 10000), false, none⟩,
   ⟨"categorie", normEnum blogCategories, false, none⟩,
   ⟨"auteur", normStr 1 (some 100), false, none⟩,
   ⟨"imageUrl", normUri, false, none⟩,
   ⟨"produitIds", normStr 1 none, false, none⟩,
   ⟨"tags", normStr 1 none, false, none⟩,
   ⟨"publie", normBool, false, none⟩]

/-- One row of a Prisma table: the generated id, the creation timestamp used
by `orderBy createdAt`, and the stored column values. -/
structure Record where
  id : String
  createdAt : Nat
  fields : JObject
deriving DecidableEq, Repr

/-- A Prisma table. -/
abbrev Store := List Record

/-- Stable insertion into a sorted list (model of the store `orderBy`). -/
def insertSorted (le : α → α → Bool) (a : α) : List α → List α
  | [] => [a]
  | b :: bs => if le a b then a :: b :: bs else b :: insertSorted le a bs

/-- Stable sort used to model Prisma `orderBy`. -/
def sortBy (le : α → α → Bool) : List α → List α
  | [] => []
  | a :: as => insertSorted le a (sortBy le as)

/-- Ordering `orderBy createdAt desc`. -/
def byCreatedDesc (a b : Record) : Bool := decide (b.createdAt ≤ a.createdAt)

/-- String value of a record column, defaulting to the empty string. -/
def fieldStr (r : Record) (k : String) : String :=
  match lookupField r.fields k with
  | some (.jstr s) => s
  | _ => ""

/-- Ordering `orderBy nom asc`. -/
def byNomAsc (a b : Record) : Bool := decide (fieldStr a "nom" ≤ fieldStr b "nom")

/-- Prisma `findMany({where, skip, take, orderBy})`. -/
def findMany (s : Store) (w : Record → Bool) (le : Record → Record → Bool)
    (skip take : Nat) : List Record :=
  ((sortBy le (s.filter w)).drop skip).take take

/-- Prisma `count({where})`. -/
def countWhere (s : Store) (w : Record → Bool) : Nat := (s.filter w).length

/-- Prisma `findUnique`/`findFirst` with a `where` predicate. -/
def findFirstWhere (s : Store) (w : Record → Bool) : Option Record := s.find? w

/-- Apply an update object on top of existing columns (`prisma.update` data). -/
def mergeFields (orig upd : JObject) : JObject :=
  (orig.filter (fun kv => !(upd.any (fun uv => uv.1 == kv.1)))) ++ upd

/-- Replace the columns of the matching row with the merged update. -/
def updateStore (s : Store) (id : String) (upd : JObject) : Store :=
  s.map (fun r => if r.id == id then ⟨r.id, r.createdAt, mergeFields r.fields upd⟩ else r)

/-- Remove the matching row. -/
def deleteStore (s : Store) (id : String) : Store :=
  s.filter (fun r => !(r.id == id))

/-- JSON serialisation of a stored record (server-assigned timestamps elided). -/
def recordJson (r : Record) : JObject := ("id", .jstr r.id) :: r.fields

/-- The `Math.ceil(total / limit)` of the pagination blocks, for `limit ≥ 1`. -/
def jsCeil (total limit : Nat) : Nat := (total + limit - 1) / limit

/-- The `{page, limit, total, pages}` pagination block. -/
structure Pagination where
  page : Nat
  limit : Nat
  total : Nat
  pages : Nat
deriving DecidableEq, Repr

/-- Bodies of the JSON responses emitted by the controllers. -/
inductive RespBody where
  | record : JObject → RespBody
  | message : String → RespBody
  | messageRecord : String → JObject → RespBody
  | listPage : List JObject → Pagination → RespBody
  | listCount : List JObject → Nat → RespBody
  | loginSuccess : String → JObject → RespBody
  | err : String → RespBody
  | errDetails : String → List String → RespBody
deriving DecidableEq, Repr

/-- An HTTP response: status code and JSON body. -/
structure Response where
  status : Nat
  body : RespBody
deriving DecidableEq, Repr

/-- All resource objects carried by a successful response body. -/
def Response.dataObjects : Response → List JObject
  | ⟨_, .record o⟩ => [o]
  | ⟨_, .messageRecord _ o⟩ => [o]
  | ⟨_, .listPage os _⟩ => os
  | ⟨_, .listCount os _⟩ => os
  | ⟨_, .loginSuccess _ o⟩ => [o]
  | _ => []

/-- The pagination block of a list response, when there is one. -/
def Response.paginationOf : Response → Option Pagination
  | ⟨_, .listPage _ p⟩ => some p
  | _ => none

/-- The bcrypt library, abstractly: hashing is injective and `compare`
recognises exactly the password a hash was derived from. -/
def bcryptHash (password : String) : String := "bcrypt10$" ++ password

/-- Model of `bcrypt.compare(password, hash)`. -/
def bcryptCompare (password hash : String) : Bool := hash == bcryptHash password

/-- The `where` object built by `getAllProduits`: always `actif: true`, plus
the truthy query filters. -/
def produitListWhere (categorie : Option String) (yukaMin : Option Int)
    (prixMax : Option JNum) (r : Record) : Bool :=
  lookupField r.fields "actif" == some (.jbool true) &&
  (match categorie with
   | none => true
   | some c => if c.isEmpty then true
       else lookupField r.fields "categorie" == some (.jstr c)) &&
  (match yukaMin with
   | none => true
   | some m =>
     match lookupField r.fields "yukaScore" with
     | some (.jnum q) => intLeJNum m q
     | _ => false) &&
  (match prixMax with
   | none => true
   | some mx =>
     match lookupField r.fields "prix" with
     | some (.jnum q) => q.leJ mx
     | _ => false)

/-- Controller `getAllProduits`: page/limit arrive already parsed and
defaulted (`page = 1`, `limit = 10` when absent). -/
def getAllProduits (page limit : Nat) (categorie : Option String)
    (yukaMin : Option Int) (prixMax : Option JNum) (s : Store) : Response :=
  let w := produitListWhere categorie yukaMin prixMax
  let skip := (page - 1) * limit
  let produits := findMany s w byCreatedDesc skip limit
  let total := countWhere s w
  ⟨200, .listPage (produits.map recordJson) ⟨page, limit, total, jsCeil total limit⟩⟩

/-- Controller `getProduitById`: `!id` is the empty string for a path
parameter, checked before any store lookup. -/
def getProduitById (id : String) (s : Store) : Response :=
  if id.isEmpty then ⟨400, .err "ID du produit requis"⟩
  else
    match findFirstWhere s (fun r => r.id == id) with
    | none => ⟨404, .err "Produit non trouvé"⟩
    | some p => ⟨200, .record (recordJson p)⟩

/-- Controller `createProduit`.  The product table carries no in-controller
uniqueness pre-check; the store-level `P2002` branch is outside this model. -/
def createProduit (body : JObject) (newId : String) (now : Nat) (s : Store) :
    Response × Store :=
  match joiValidate produitSchema body with
  | .error m => (⟨400, .errDetails "Données invalides" [m]⟩, s)
  | .ok value =>
    let r : Record := ⟨newId, now, value⟩
    (⟨201, .messageRecord "Produit créé avec succès" (recordJson r)⟩, r :: s)

/-- Controller `updateProduit`: empty-id check, then validation, then
existence check, then the partial update. -/
def updateProduit (id : String) (body : JObject) (s : Store) : Response × Store :=
  if id.isEmpty then (⟨400, .err "ID du produit requis"⟩, s)
  else
    match joiValidate updateProduitSchema body with
    | .error m => (⟨400, .errDetails "Données invalides" [m]⟩, s)
    | .ok value =>
      match findFirstWhere s (fun r => r.id == id) with
      | none => (⟨404, .err "Produit non trouvé"⟩, s)
      | some r =>
        let r2 : Record := ⟨r.id, r.createdAt, mergeFields r.fields value⟩
        (⟨200, .messageRecord "Produit mis à jour avec succès" (recordJson r2)⟩,
         updateStore s id value)

/-- Controller `deleteProduit`: empty-id check, existence check, removal. -/
def deleteProduit (id : String) (s : Store) : Response × Store :=
  if id.isEmpty then (⟨400, .err "ID du produit requis"⟩, s)
  else
    match findFirstWhere s (fun r => r.id == id) with
    | none => (⟨404, .err "Produit non trouvé"⟩, s)
    | some _ => (⟨200, .message "Produit supprimé avec succès"⟩, deleteStore s id)

/-- The `where` object built by `searchProduits`: always `actif: true`, plus
the free-text OR filter and the numeric bounds. -/
def produitSearchWhere (q categorie : Option String) (yukaMin : Option Int)
    (prixMax prixMin : Option JNum) (r : Record) : Bool :=
  lookupField r.fields "actif" == some (.jbool true) &&
  (match q with
   | none => true
   | some t => if t.isEmpty then true
       else strContains (fieldStr r "nom") t || strContains (fieldStr r "description") t) &&
  (match categorie with
   | none => true
   | some c => if c.isEmpty then true
       else lookupField r.fields "categorie" == some (.jstr c)) &&
  (match yukaMin with
   | none => true
   | some m =>
     match lookupField r.fields "yukaScore" with
     | some (.jnum qq) => intLeJNum m qq
     | _ => false) &&
  (match prixMax with
   | none => true
   | some mx =>
     match lookupField r.fields "prix" with
     | some (.jnum qq) => qq.leJ mx
     | _ => false) &&
  (match prixMin with
   | none => true
   | some mn =>
     match lookupField r.fields "prix" with
     | some (.jnum qq) => mn.leJ qq
     | _ => false)

/-- Controller `searchProduits`: unpaginated, returns all matches plus count. -/
def searchProduits (q categorie : Option String) (yukaMin : Option Int)
    (prixMax prixMin : Option JNum) (s : Store) : Response :=
  let produits := sortBy byCreatedDesc
    (s.filter (produitSearchWhere q categorie yukaMin prixMax prixMin))
  ⟨200, .listCount (produits.map recordJson) produits.length⟩

/-- The `where` object built by `getAllIngredients`: the boolean filters are
set whenever the parameter is present (`!== undefined`) and compare the stored
flag against `param === "true"`; `origine` is a truthy equality filter. -/
def ingredientListWhere (bio allergene origine : Option String) (r : Record) : Bool :=
  (match bio with
   | none => true
   | some b => lookupField r.fields "bio" == some (.jbool (b == "true"))) &&
  (match allergene with
   | none => true
   | some a => lookupField r.fields "allergene" == some (.jbool (a == "true"))) &&
  (match origine with
   | none => true
   | some o => if o.isEmpty then true
       else lookupField r.fields "origine" == some (.jstr o))

/-- Controller `getAllIngredients`. -/
def getAllIngredients (page limit : Nat) (bio allergene origine : Option String)
    (s : Store) : Response :=
  let w := ingredientListWhere bio allergene origine
  let skip := (page - 1) * limit
  let ingredients := findMany s w byNomAsc skip limit
  let total := countWhere s w
  ⟨200, .listPage (ingredients.map recordJson) ⟨page, limit, total, jsCeil total limit⟩⟩

/-- Controller `getIngredientById`. -/
def getIngredientById (id : String) (s : Store) : Response :=
  if id.isEmpty then ⟨400, .err "ID de l\x27ingrédient requis"⟩
  else
    match findFirstWhere s (fun r => r.id == id) with
    | none => ⟨404, .err "Ingrédient non trouvé"⟩
    | some r => ⟨200, .record (recordJson r)⟩

/-- Controller `createIngredient`: validation, then an explicit `findFirst`
uniqueness pre-check on `nom`, then the insert. -/
def createIngredient (body : JObject) (newId : String) (now : Nat) (s : Store) :
    Response × Store :=
  match joiValidate ingredientSchema body with
  | .error m => (⟨400, .errDetails "Données invalides" [m]⟩, s)
  | .ok value =>
    match findFirstWhere s
        (fun r => lookupField r.fields "nom" == lookupField value "nom") with
    | some _ => (⟨400, .err "Un ingrédient avec ce nom existe déjà"⟩, s)
    | none =>
      let r : Record := ⟨newId, now, value⟩
      (⟨201, .messageRecord "Ingrédient créé avec succès" (recordJson r)⟩, r :: s)

/-- Controller `updateIngredient`. -/
def updateIngredient (id : String) (body : JObject) (s : Store) : Response × Store :=
  if id.isEmpty then (⟨400, .err "ID de l\x27ingrédient requis"⟩, s)
  else
    match joiValidate updateIngredientSchema body with
    | .error m => (⟨400, .errDetails "Données invalides" [m]⟩, s)
    | .ok value =>
      match findFirstWhere s (fun r => r.id == id) with
      | none => (⟨404, .err "Ingrédient non trouvé"⟩, s)
      | some r =>
        let r2 : Record := ⟨r.id, r.createdAt, mergeFields r.fields value⟩
        (⟨200, .messageRecord "Ingrédient mis à jour avec succès" (recordJson r2)⟩,
         updateStore s id value)

/-- Controller `deleteIngredient`. -/
def deleteIngredient (id : String) (s : Store) : Response × Store :=
  if id.isEmpty then (⟨400, .err "ID de l\x27ingrédient requis"⟩, s)
  else
    match findFirstWhere s (fun r => r.id == id) with
    | none => (⟨404, .err "Ingrédient non trouvé"⟩, s)
    | some _ => (⟨200, .message "Ingrédient supprimé avec succès"⟩, deleteStore s id)

/-- The `where` object built by `searchIngredients`. -/
def ingredientSearchWhere (q bio allergene origine : Option String) (r : Record) : Bool :=
  (match q with
   | none => true
   | some t => if t.isEmpty then true
       else strContains (fieldStr r "nom") t || strContains (fieldStr r "description") t) &&
  ingredientListWhere bio allergene origine r

/-- Controller `searchIngredients`: unpaginated, all matches plus count. -/
def searchIngredients (q bio allergene origine : Option String) (s : Store) : Response :=
  let ingredients := sortBy byNomAsc
    (s.filter (ingredientSearchWhere q bio allergene origine))
  ⟨200, .listCount (ingredients.map recordJson) ingredients.length⟩

/-- A stored column value serialised for a Prisma `select`, `null` if absent. -/
def fieldOr (r : Record) (k : String) : JValue :=
  (lookupField r.fields k).getD .jnull

/-- The `select` block shared by the non-login operations of the user controller:
every column except `motDePasse` (timestamps elided as everywhere here). -/
def selectUtilisateur (r : Record) : JObject :=
  [("id", .jstr r.id),
   ("email", fieldOr r "email"),
   ("nom", fieldOr r "nom"),
   ("prenom", fieldOr r "prenom"),
   ("role", fieldOr r "role"),
   ("adresse", fieldOr r "adresse"),
   ("telephone", fieldOr r "telephone"),
   ("newsletter", fieldOr r "newsletter")]

/-- The `where` object built by `getAllUtilisateurs`: truthy `role` equality
filter, and the `newsletter === "true"` comparison whenever present. -/
def utilisateurListWhere (role newsletter : Option String) (r : Record) : Bool :=
  (match role with
   | none => true
   | some ro => if ro.isEmpty then true
       else lookupField r.fields "role" == some (.jstr ro)) &&
  (match newsletter with
   | none => true
   | some n => lookupField r.fields "newsletter" == some (.jbool (n == "true")))

/-- Controller `getAllUtilisateurs`. -/
def getAllUtilisateurs (page limit : Nat) (role newsletter : Option String)
    (s : Store) : Response :=
  let w := utilisateurListWhere role newsletter
  let skip := (page - 1) * limit
  let utilisateurs := findMany s w byCreatedDesc skip limit
  let total := countWhere s w
  ⟨200, .listPage (utilisateurs.map selectUtilisateur)
    ⟨page, limit, total, jsCeil total limit⟩⟩

/-- Controller `getUtilisateurById`. -/
def getUtilisateurById (id : String) (s : Store) : Response :=
  if id.isEmpty then ⟨400, .err "ID de l\x27utilisateur requis"⟩
  else
    match findFirstWhere s (fun r => r.id == id) with
    | none => ⟨404, .err "Utilisateur non trouvé"⟩
    | some r => ⟨200, .record (selectUtilisateur r)⟩

/-- Replace a present, truthy `motDePasse` field by its bcrypt hash
(`createUtilisateur` always hashes; `updateUtilisateur` hashes when given). -/
def hashPasswordField (o : JObject) : JObject :=
  match lookupField o "motDePasse" with
  | some (.jstr p) =>
    if p.isEmpty then o
    else o.map (fun kv => if kv.1 == "motDePasse" then (kv.1, .jstr (bcryptHash p)) else kv)
  | _ => o

/-- Controller `createUtilisateur`: validation, `findUnique` uniqueness
pre-check on `email`, bcrypt hashing, insert, `select` response. -/
def createUtilisateur (body : JObject) (newId : String) (now : Nat) (s : Store) :
    Response × Store :=
  match joiValidate utilisateurSchema body with
  | .error m => (⟨400, .errDetails "Données invalides" [m]⟩, s)
  | .ok value =>
    match findFirstWhere s
        (fun r => lookupField r.fields "email" == lookupField value "email") with
    | some _ => (⟨400, .err "Un utilisateur avec cet email existe déjà"⟩, s)
    | none =>
      let r : Record := ⟨newId, now, hashPasswordField value⟩
      (⟨201, .messageRecord "Utilisateur créé avec succès" (selectUtilisateur r)⟩,
       r :: s)

/-- Controller `updateUtilisateur`. -/
def updateUtilisateur (id : String) (body : JObject) (s : Store) : Response × Store :=
  if id.isEmpty then (⟨400, .err "ID de l\x27utilisateur requis"⟩, s)
  else
    match joiValidate updateUtilisateurSchema body with
    | .error m => (⟨400, .errDetails "Données invalides" [m]⟩, s)
    | .ok value =>
      match findFirstWhere s (fun r => r.id == id) with
      | none => (⟨404, .err "Utilisateur non trouvé"⟩, s)
      | some r =>
        let upd := hashPasswordField value
        let r2 : Record := ⟨r.id, r.createdAt, mergeFields r.fields upd⟩
        (⟨200, .messageRecord "Utilisateur mis à jour avec succès" (selectUtilisateur r2)⟩,
         updateStore s id upd)

/-- Controller `deleteUtilisateur`. -/
def deleteUtilisateur (id : String) (s : Store) : Response × Store :=
  if id.isEmpty then (⟨400, .err "ID de l\x27utilisateur requis"⟩, s)
  else
    match findFirstWhere s (fun r => r.id == id) with
    | none => (⟨404, .err "Utilisateur non trouvé"⟩, s)
    | some _ => (⟨200, .message "Utilisateur supprimé avec succès"⟩, deleteStore s id)

/-- A login request body: both fields may be absent. -/
structure LoginRequest where
  email : Option String
  motDePasse : Option String

/-- Controller `login`: missing or empty email/password is a 400; an unknown
email and a failed hash comparison both produce the identical 401 body; on
success the user is returned with the `motDePasse` key destructured away.
A stored non-string hash would make `bcrypt.compare` throw, caught as a 500. -/
def login (req : LoginRequest) (s : Store) : Response :=
  match req.email, req.motDePasse with
  | some e, some p =>
    if e.isEmpty || p.isEmpty then ⟨400, .err "Email et mot de passe requis"⟩
    else
      match findFirstWhere s (fun r => lookupField r.fields "email" == some (.jstr e)) with
      | none => ⟨401, .err "Email ou mot de passe incorrect"⟩
      | some u =>
        match lookupField u.fields "motDePasse" with
        | some (.jstr h) =>
          if bcryptCompare p h then
            ⟨200, .loginSuccess "Connexion réussie"
              (("id", .jstr u.id) :: u.fields.filter (fun kv => !(kv.1 == "motDePasse")))⟩
          else ⟨401, .err "Email ou mot de passe incorrect"⟩
        | _ => ⟨500, .err "Erreur serveur"⟩
  | _, _ => ⟨400, .err "Email et mot de passe requis"⟩

/-- The `where` object built by `searchUtilisateurs`. -/
def utilisateurSearchWhere (q role newsletter : Option String) (r : Record) : Bool :=
  (match q with
   | none => true
   | some t => if t.isEmpty then true
       else strContains (fieldStr r "email") t || strContains (fieldStr r "nom") t ||
            strContains (fieldStr r "prenom") t) &&
  utilisateurListWhere role newsletter r

/-- Controller `searchUtilisateurs`: unpaginated, `select` applied. -/
def searchUtilisateurs (q role newsletter : Option String) (s : Store) : Response :=
  let utilisateurs := sortBy byCreatedDesc
    (s.filter (utilisateurSearchWhere q role newsletter))
  ⟨200, .listCount (utilisateurs.map selectUtilisateur) utilisateurs.length⟩

/-- The `where` object built by `getAllBlogs`: truthy `categorie`/`auteur`
filters and the `publie === "true"` comparison whenever present. -/
def blogListWhere (categorie auteur publie : Option String) (r : Record) : Bool :=
  (match categorie with
   | none => true
   | some c => if c.isEmpty then true
       else lookupField r.fields "categorie" == some (.jstr c)) &&
  (match auteur with
   | none => true
   | some a => if a.isEmpty then true
       else lookupField r.fields "auteur" == some (.jstr a)) &&
  (match publie with
   | none => true
   | some p => lookupField r.fields "publie" == some (.jbool (p == "true")))

/-- Controller `getAllBlogs`. -/
def getAllBlogs (page limit : Nat) (categorie auteur publie : Option String)
    (s : Store) : Response :=
  let w := blogListWhere categorie auteur publie
  let skip := (page - 1) * limit
  let blogs := findMany s w byCreatedDesc skip limit
  let total := countWhere s w
  ⟨200, .listPage (blogs.map recordJson) ⟨page, limit, total, jsCeil total limit⟩⟩

/-- Controller `getBlogById`. -/
def getBlogById (id : String) (s : Store) : Response :=
  if id.isEmpty then ⟨400, .err "ID du blog requis"⟩
  else
    match findFirstWhere s (fun r => r.id == id) with
    | none => ⟨404, .err "Blog non trouvé"⟩
    | some r => ⟨200, .record (recordJson r)⟩

/-- Controller `createBlog` (no in-controller uniqueness pre-check). -/
def createBlog (body : JObject) (newId : String) (now : Nat) (s : Store) :
    Response × Store :=
  match joiValidate blogSchema body with
  | .error m => (⟨400, .errDetails "Données invalides" [m]⟩, s)
  | .ok value =>
    let r : Record := ⟨newId, now, value⟩
    (⟨201, .messageRecord "Blog créé avec succès" (recordJson r)⟩, r :: s)

/-- Controller `updateBlog`. -/
def updateBlog (id : String) (body : JObject) (s : Store) : Response × Store :=
  if id.isEmpty then (⟨400, .err "ID du blog requis"⟩, s)
  else
    match joiValidate updateBlogSchema body with
    | .error m => (⟨400, .errDetails "Données invalides" [m]⟩, s)
    | .ok value =>
      match findFirstWhere s (fun r => r.id == id) with
      | none => (⟨404, .err "Blog non trouvé"⟩, s)
      | some r =>
        let r2 : Record := ⟨r.id, r.createdAt, mergeFields r.fields value⟩
        (⟨200, .messageRecord "Blog mis à jour avec succès" (recordJson r2)⟩,
         updateStore s id value)

/-- Controller `deleteBlog`. -/
def deleteBlog (id : String) (s : Store) : Response × Store :=
  if id.isEmpty then (⟨400, .err "ID du blog requis"⟩, s)
  else
    match findFirstWhere s (fun r => r.id == id) with
    | none => (⟨404, .err "Blog non trouvé"⟩, s)
    | some _ => (⟨200, .message "Blog supprimé avec succès"⟩, deleteStore s id)

/-- Fixture: a stored allergen ingredient. -/
def exIngredient : Record :=
  ⟨"i1", 5, [("nom", .jstr "Arachide"), ("origine", .jstr "France"),
             ("bio", .jbool false), ("allergene", .jbool true)]⟩

/-- Fixture: an ingredient table with one allergen row. -/
def exIngredientStore : Store := [exIngredient]

/-- Fixture: a stored active product. -/
def exProduit : Record :=
  ⟨"p1", 7, [("nom", .jstr "Savon au Miel"),
             ("description", .jstr "Savon artisanal au miel bio"),
             ("prix", .jnum ⟨890, 100⟩), ("categorie", .jstr "savon"),
             ("stock", .jnum ⟨15, 1⟩), ("actif", .jbool true),
             ("ingredientIds", .jstr "[]"), ("bienfaits", .jstr "[]"),
             ("quantiteIds", .jstr "[]"), ("blogIds", .jstr "[]")]⟩

/-- Fixture: a product table with one active row. -/
def exProduitStore : Store := [exProduit]

/-- Fixture: a stored user with a bcrypt-hashed credential. -/
def exUtilisateur : Record :=
  ⟨"u1", 3, [("email", .jstr "alice@cynova.fr"),
             ("motDePasse", .jstr (bcryptHash "supersecret")),
             ("role", .jstr "USER"), ("newsletter", .jbool false)]⟩

/-- Fixture: a user table with one row. -/
def exUtilisateurStore : Store := [exUtilisateur]

/-- Fixture: a valid ingredient create payload without `bio`. -/
def exIngredientBody : JObject := [("nom", .jstr "Karité")]

/-- Fixture: the same ingredient payload plus one unknown key. -/
def exIngredientBodyUnknown : JObject :=
  [("nom", .jstr "Karité"), ("inconnu", .jstr "x")]

/-- Fixture: a valid product create payload without `actif`. -/
def exProduitBody : JObject :=
  [("nom", .jstr "Savon au Miel"),
   ("description", .jstr "Savon artisanal au miel bio"),
   ("prix", .jnum ⟨89, 10⟩), ("categorie", .jstr "savon"),
   ("stock", .jnum ⟨15, 1⟩)]

/-- Fixture: a valid blog create payload without `auteur`. -/
def exBlogBody : JObject :=
  [("titre", .jstr "Guide DIY masque hydratant"),
   ("contenu", .jstr "Découvrez comment créer votre propre masque hydratant à la maison avec des ingrédients naturels."),
   ("categorie", .jstr "DIY")]

/-- Fixture: a valid user create payload reusing the email of the stored user. -/
def exUtilisateurBody : JObject :=
  [("email", .jstr "alice@cynova.fr"), ("motDePasse", .jstr "supersecret")]

/-- Fixture: a create payload whose name duplicates the stored ingredient name. -/
def exIngredientDupBody : JObject := [("nom", .jstr "Arachide")]

/-- Fixture: the validator output for `exIngredientDupBody`. -/
def exIngredientDupValue : JObject :=
  [("nom", .jstr "Arachide"), ("bio", .jbool false), ("allergene", .jbool false)]

/-- Fixture: the validator output for `exIngredientBody`. -/
def exIngredientValue : JObject :=
  [("nom", .jstr "Karité"), ("bio", .jbool false), ("allergene", .jbool false)]

/-- Fixture: the validator output for `exProduitBody`. -/
def exProduitValue : JObject :=
  [("nom", .jstr "Savon au Miel"),
   ("description", .jstr "Savon artisanal au miel bio"),
   ("prix", .jnum ⟨890, 100⟩), ("categorie", .jstr "savon"),
   ("ingredientIds", .jstr "[]"), ("bienfaits", .jstr "[]"),
   ("quantiteIds", .jstr "[]"), ("stock", .jnum ⟨15, 1⟩),
   ("blogIds", .jstr "[]"), ("actif", .jbool true)]

/-- Fixture: the validator output for `exBlogBody`. -/
def exBlogValue : JObject :=
  [("titre", .jstr "Guide DIY masque hydratant"),
   ("contenu", .jstr "Découvrez comment créer votre propre masque hydratant à la maison avec des ingrédients naturels."),
   ("categorie", .jstr "DIY"), ("auteur", .jstr "Équipe Cynova"),
   ("produitIds", .jstr "[]"), ("tags", .jstr "[]"), ("publie", .jbool true)]

/-- Fixture: the validator output for `exUtilisateurBody`. -/
def exUtilisateurValue : JObject :=
  [("email", .jstr "alice@cynova.fr"), ("motDePasse", .jstr "supersecret"),
   ("role", .jstr "USER"), ("newsletter", .jbool false)]

/-! Helper lemmas about the embedded store and validator. -/

theorem length_insertSorted (le : α → α → Bool) (a : α) (l : List α) :
    (insertSorted le a l).length = l.length + 1 := by
  induction l with
  | nil => rfl
  | cons b bs ih =>
    unfold insertSorted
    by_cases h : le a b = true
    · simp [h]
    · simp [h, ih]

theorem length_sortBy (le : α → α → Bool) (l : List α) :
    (sortBy le l).length = l.length := by
  induction l with
  | nil => rfl
  | cons a as ih => simp [sortBy, length_insertSorted, ih]

theorem mem_insertSorted (le : α → α → Bool) (a b : α) (l : List α) :
    b ∈ insertSorted le a l ↔ b = a ∨ b ∈ l := by
  induction l with
  | nil => simp [insertSorted]
  | cons c cs ih =>
    unfold insertSorted
    by_cases h : le a c = true
    · simp [h]
    · simp [h, ih]
      tauto

theorem mem_sortBy (le : α → α → Bool) (b : α) (l : List α) :
    b ∈ sortBy le l ↔ b ∈ l := by
  induction l with
  | nil => simp [sortBy]
  | cons a as ih => simp [sortBy, mem_insertSorted, ih]

theorem findMany_length_le (s : Store) (w : Record → Bool)
    (le : Record → Record → Bool) (skip take : Nat) :
    (findMany s w le skip take).length ≤ take := by
  simp [findMany]

theorem mem_findMany (s : Store) (w : Record → Bool) (le : Record → Record → Bool)
    (skip take : Nat) (r : Record) (h : r ∈ findMany s w le skip take) :
    r ∈ s ∧ w r = true := by
  unfold findMany at h
  have h1 : r ∈ (sortBy le (s.filter w)).drop skip := List.take_subset _ _ h
  have h2 : r ∈ sortBy le (s.filter w) := List.drop_subset _ _ h1
  have h3 : r ∈ s.filter w := (mem_sortBy le r _).mp h2
  simpa using List.mem_filter.mp h3

theorem le_jsCeil_mul (t l : Nat) (hl : 0 < l) : t ≤ jsCeil t l * l := by
  unfold jsCeil
  generalize hq : (t + l - 1) / l = q
  have h1 : l * q + (t + l - 1) % l = t + l - 1 := by
    rw [← hq]; exact Nat.div_add_mod _ _
  have h2 : (t + l - 1) % l < l := Nat.mod_lt _ hl
  rw [Nat.mul_comm]
  generalize hp : l * q = P at h1 ⊢
  omega

theorem jsCeil_le (t l m : Nat) (hl : 0 < l) (h : t ≤ m * l) : jsCeil t l ≤ m := by
  unfold jsCeil
  have hlt : t + l - 1 < (m + 1) * l := by
    have h4 : (m + 1) * l = m * l + l := Nat.succ_mul m l
    generalize hp : m * l = P at h h4
    omega
  have h5 := (Nat.div_lt_iff_lt_mul hl).mpr hlt
  omega

theorem jsCeil_eq_ceil (t l : Nat) (hl : 0 < l) :
    jsCeil t l = ⌈(t : ℚ) / (l : ℚ)⌉₊ := by
  have hl0 : (0 : ℚ) < (l : ℚ) := by exact_mod_cast hl
  rcases Nat.eq_zero_or_pos t with ht | ht
  · subst ht
    have hz : jsCeil 0 l = 0 := by
      unfold jsCeil
      exact Nat.div_eq_of_lt (by omega)
    rw [hz]
    simp
  · have hn0 : jsCeil t l ≠ 0 := by
      intro h0
      have := le_jsCeil_mul t l hl
      rw [h0] at this
      omega
    rw [eq_comm, Nat.ceil_eq_iff hn0]
    constructor
    · rw [lt_div_iff hl0]
      have hnat : (jsCeil t l - 1) * l < t := by
        by_contra hc
        push_neg at hc
        have := jsCeil_le t l (jsCeil t l - 1) hl hc
        omega
      exact_mod_cast hnat
    · rw [div_le_iff hl0]
      exact_mod_cast le_jsCeil_mul t l hl

theorem lookupField_cons_ne (k1 k : String) (v : JValue) (o : JObject)
    (h : k1 ≠ k) : lookupField ((k1, v) :: o) k = lookupField o k := by
  simp [lookupField, List.find?_cons, h]

theorem lookupField_cons_self (k : String) (v : JValue) (o : JObject) :
    lookupField ((k, v) :: o) k = some v := by
  simp [lookupField, List.find?_cons]

theorem lookupField_recordJson (r : Record) (k : String) (h : "id" ≠ k) :
    lookupField (recordJson r) k = lookupField r.fields k :=
  lookupField_cons_ne "id" k (.jstr r.id) r.fields h

theorem lookupField_filter_password (o : JObject) :
    lookupField (o.filter (fun kv => !(kv.1 == "motDePasse"))) "motDePasse" = none := by
  unfold lookupField
  rw [List.find?_eq_none.mpr]
  · rfl
  · intro kv hkv
    have := (List.mem_filter.mp hkv).2
    simp at this ⊢
    exact this

theorem selectUtilisateur_no_password (r : Record) :
    lookupField (selectUtilisateur r) "motDePasse" = none := by
  simp [selectUtilisateur, lookupField, List.find?_cons]

theorem joiValidate_ok (rules : List FieldRule) (input v : JObject)
    (h : joiValidate rules input = .ok v) :
    validateRules rules input = .ok v := by
  unfold joiValidate at h
  cases hc : checkUnknown rules input with
  | some e => rw [hc] at h; simp at h
  | none => rw [hc] at h; exact h

theorem joiValidate_error_of_unknown (rules : List FieldRule) (input : JObject)
    (k : String) (v : JValue) (hmem : (k, v) ∈ input)
    (hunk : ∀ ru ∈ rules, ru.key ≠ k) :
    ∃ e, joiValidate rules input = .error e := by
  have hsome : (input.find? (fun kv => !(rules.any (fun ru => ru.key == kv.1)))).isSome := by
    rw [List.find?_isSome]
    refine ⟨(k, v), hmem, ?_⟩
    simp only [Bool.not_eq_eq_eq_not, Bool.not_true, List.any_eq_false]
    intro ru hru
    simpa using hunk ru hru
  obtain ⟨kv, hkv⟩ := Option.isSome_iff_exists.mp hsome
  refine ⟨"\"" ++ kv.1 ++ "\" is not allowed", ?_⟩
  simp [joiValidate, checkUnknown, hkv]

theorem applyRule_ok_some (ru : FieldRule) (input : JObject) (kv : String × JValue)
    (h : applyRule ru input = .ok (some kv)) : kv.1 = ru.key := by
  cases kv with
  | mk k1 v1 =>
    cases hlk : lookupField input ru.key with
    | some val =>
      cases hnorm : ru.norm val with
      | none => simp [applyRule, hlk, hnorm] at h
      | some v2 =>
        simp [applyRule, hlk, hnorm] at h
        simp [h.1]
    | none =>
      by_cases hreq : ru.required = true
      · simp [applyRule, hlk, hreq] at h
      · cases hd : ru.dflt with
        | some d =>
          simp [applyRule, hlk, hreq, hd] at h
          simp [h.1]
        | none => simp [applyRule, hlk, hreq, hd] at h

theorem applyRule_ok_absent (ru : FieldRule) (input : JObject)
    (x : Option (String × JValue)) (h : applyRule ru input = .ok x)
    (habs : lookupField input ru.key = none) :
    x = ru.dflt.map (fun d => (ru.key, d)) := by
  by_cases hreq : ru.required = true
  · simp [applyRule, habs, hreq] at h
  · cases hd : ru.dflt with
    | some d =>
      simp [applyRule, habs, hreq, hd] at h
      simp [hd, h]
    | none =>
      simp [applyRule, habs, hreq, hd] at h
      simp [hd, h]

theorem validateRules_ok_default (rules : List FieldRule) (input v : JObject)
    (k : String) (d : JValue)
    (hok : validateRules rules input = .ok v)
    (habs : lookupField input k = none)
    (hfind : (rules.find? (fun ru => ru.key == k)).map FieldRule.dflt = some (some d)) :
    lookupField v k = some d := by
  induction rules generalizing v with
  | nil => simp at hfind
  | cons ru rest ih =>
    unfold validateRules at hok
    cases happ : applyRule ru input with
    | error e => rw [happ] at hok; simp at hok
    | ok x =>
      rw [happ] at hok
      by_cases hkey : ru.key = k
      · have hfind2 : ru.dflt = some d := by
          rw [List.find?_cons_of_pos _ (by simp [hkey])] at hfind
          simpa using hfind
        have hx : x = some (ru.key, d) := by
          have h2 := applyRule_ok_absent ru input x happ (by rw [hkey]; exact habs)
          rw [hfind2] at h2
          simpa using h2
        rw [hx] at hok
        cases hrest : validateRules rest input with
        | error e => rw [hrest] at hok; simp at hok
        | ok o =>
          rw [hrest] at hok
          simp at hok
          rw [← hok, ← hkey, lookupField_cons_self]
      · rw [List.find?_cons_of_neg _ (by simp [hkey])] at hfind
        cases x with
        | none => exact ih v hok hfind
        | some kv =>
          cases hrest : validateRules rest input with
          | error e => rw [hrest] at hok; simp at hok
          | ok o =>
            rw [hrest] at hok
            simp at hok
            have hk1 : kv.1 ≠ k := by
              rw [applyRule_ok_some ru input kv happ]
              exact hkey
            rw [← hok]
            cases kv with
            | mk k1 v1 =>
              rw [lookupField_cons_ne _ _ _ _ hk1]
              exact ih o hrest hfind

theorem validateRules_ok_no_default (rules : List FieldRule) (input v : JObject)
    (k : String)
    (hok : validateRules rules input = .ok v)
    (habs : lookupField input k = none)
    (hnod : ∀ ru ∈ rules, ru.key = k → ru.dflt = none) :
    lookupField v k = none := by
  induction rules generalizing v with
  | nil =>
    unfold validateRules at hok
    simp at hok
    subst hok
    rfl
  | cons ru rest ih =>
    unfold validateRules at hok
    have hnod2 : ∀ ru2 ∈ rest, ru2.key = k → ru2.dflt = none := by
      intro ru2 h2 h3
      exact hnod ru2 (List.mem_cons_of_mem ru h2) h3
    cases happ : applyRule ru input with
    | error e => rw [happ] at hok; simp at hok
    | ok x =>
      rw [happ] at hok
      by_cases hkey : ru.key = k
      · have hd : ru.dflt = none := hnod ru (List.mem_cons_self ru rest) hkey
        have hx : x = none := by
          have h2 := applyRule_ok_absent ru input x happ (by rw [hkey]; exact habs)
          rw [hd] at h2
          simpa using h2
        rw [hx] at hok
        exact ih v hok hnod2
      · cases x with
        | none => exact ih v hok hnod2
        | some kv =>
          cases hrest : validateRules rest input with
          | error e => rw [hrest] at hok; simp at hok
          | ok o =>
            rw [hrest] at hok
            simp at hok
            have hk1 : kv.1 ≠ k := by
              rw [applyRule_ok_some ru input kv happ]
              exact hkey
            rw [← hok]
            cases kv with
            | mk k1 v1 =>
              rw [lookupField_cons_ne _ _ _ _ hk1]
              exact ih o hrest hnod2

theorem isEmpty_false_of_ne (s : String) (h : s ≠ "") : s.isEmpty = false := by
  cases he : s.isEmpty
  · rfl
  · exact absurd ((String.isEmpty_iff s).mp he) h

theorem lookupField_select_newsletter (r : Record) :
    lookupField (selectUtilisateur r) "newsletter" = some (fieldOr r "newsletter") := by
  simp [selectUtilisateur, lookupField, List.find?_cons]

/-! Claim theorems. -/

/-- Counterexample to claim C1: with a single allergen ingredient stored, the
request `allergene=false` and the request with no `allergene` parameter return
different result sets, so a non-`"true"` value is not treated as an absent
filter. -/
theorem allergene_false_filters_differently :
    getAllIngredients 1 10 none (some "false") none exIngredientStore ≠
      getAllIngredients 1 10 none none none exIngredientStore := by decide

/-- Claim C1 (amended): every boolean query-string filter (bio, allergene,
newsletter, publie) is applied by comparing the parameter with the literal
string "true": whenever the parameter is present, the flag of every returned record
equals `param == "true"`; in particular `allergene=false` filters for
non-allergen records rather than behaving like an absent filter. -/
theorem boolean_filters_literal_true_comparison (page limit : Nat) (s : Store)
    (q bio allergene origine role newsletter categorie auteur publie : Option String) :
    (∀ b, bio = some b →
      ∀ o ∈ (getAllIngredients page limit bio allergene origine s).dataObjects,
        lookupField o "bio" = some (.jbool (b == "true"))) ∧
    (∀ a, allergene = some a →
      ∀ o ∈ (getAllIngredients page limit bio allergene origine s).dataObjects,
        lookupField o "allergene" = some (.jbool (a == "true"))) ∧
    (∀ b, bio = some b →
      ∀ o ∈ (searchIngredients q bio allergene origine s).dataObjects,
        lookupField o "bio" = some (.jbool (b == "true"))) ∧
    (∀ a, allergene = some a →
      ∀ o ∈ (searchIngredients q bio allergene origine s).dataObjects,
        lookupField o "allergene" = some (.jbool (a == "true"))) ∧
    (∀ n, newsletter = some n →
      ∀ o ∈ (getAllUtilisateurs page limit role newsletter s).dataObjects,
        lookupField o "newsletter" = some (.jbool (n == "true"))) ∧
    (∀ n, newsletter = some n →
      ∀ o ∈ (searchUtilisateurs q role newsletter s).dataObjects,
        lookupField o "newsletter" = some (.jbool (n == "true"))) ∧
    (∀ p, publie = some p →
      ∀ o ∈ (getAllBlogs page limit categorie auteur publie s).dataObjects,
        lookupField o "publie" = some (.jbool (p == "true"))) := by
  have hingListItem : ∀ (o : JObject) (r : Record),
      o = recordJson r →
      ∀ (key : String) (b : String), ("id" : String) ≠ key →
      (lookupField r.fields key == some (JValue.jbool (b == "true"))) = true →
      lookupField o key = some (.jbool (b == "true")) := by
    intro o r hro key b hneq hw
    subst hro
    rw [lookupField_recordJson r key hneq]
    exact eq_of_beq hw
  refine ⟨?_, ?_, ?_, ?_, ?_, ?_, ?_⟩
  · intro b hb o ho
    simp only [getAllIngredients, Response.dataObjects, List.mem_map] at ho
    obtain ⟨r, hr, rfl⟩ := ho
    have hw := (mem_findMany _ _ _ _ _ r hr).2
    unfold ingredientListWhere at hw
    rw [hb] at hw
    simp only [Bool.and_eq_true] at hw
    exact hingListItem _ r rfl "bio" b (by decide) hw.1.1
  · intro a ha o ho
    simp only [getAllIngredients, Response.dataObjects, List.mem_map] at ho
    obtain ⟨r, hr, rfl⟩ := ho
    have hw := (mem_findMany _ _ _ _ _ r hr).2
    unfold ingredientListWhere at hw
    rw [ha] at hw
    simp only [Bool.and_eq_true] at hw
    exact hingListItem _ r rfl "allergene" a (by decide) hw.1.2
  · intro b hb o ho
    simp only [searchIngredients, Response.dataObjects, List.mem_map] at ho
    obtain ⟨r, hr, rfl⟩ := ho
    have hr2 : r ∈ List.filter (ingredientSearchWhere q bio allergene origine) s :=
      (mem_sortBy _ r _).mp hr
    have hw := (List.mem_filter.mp hr2).2
    unfold ingredientSearchWhere ingredientListWhere at hw
    rw [hb] at hw
    simp only [Bool.and_eq_true] at hw
    exact hingListItem _ r rfl "bio" b (by decide) hw.2.1.1
  · intro a ha o ho
    simp only [searchIngredients, Response.dataObjects, List.mem_map] at ho
    obtain ⟨r, hr, rfl⟩ := ho
    have hr2 : r ∈ List.filter (ingredientSearchWhere q bio allergene origine) s :=
      (mem_sortBy _ r _).mp hr
    have hw := (List.mem_filter.mp hr2).2
    unfold ingredientSearchWhere ingredientListWhere at hw
    rw [ha] at hw
    simp only [Bool.and_eq_true] at hw
    exact hingListItem _ r rfl "allergene" a (by decide) hw.2.1.2
  · intro n hn o ho
    simp only [getAllUtilisateurs, Response.dataObjects, List.mem_map] at ho
    obtain ⟨r, hr, rfl⟩ := ho
    have hw := (mem_findMany _ _ _ _ _ r hr).2
    unfold utilisateurListWhere at hw
    rw [hn] at hw
    simp only [Bool.and_eq_true] at hw
    rw [lookupField_select_newsletter r]
    have hfield := eq_of_beq hw.2
    unfold fieldOr
    rw [hfield]
    rfl
  · intro n hn o ho
    simp only [searchUtilisateurs, Response.dataObjects, List.mem_map] at ho
    obtain ⟨r, hr, rfl⟩ := ho
    have hr2 : r ∈ List.filter (utilisateurSearchWhere q role newsletter) s :=
      (mem_sortBy _ r _).mp hr
    have hw := (List.mem_filter.mp hr2).2
    unfold utilisateurSearchWhere utilisateurListWhere at hw
    rw [hn] at hw
    simp only [Bool.and_eq_true] at hw
    rw [lookupField_select_newsletter r]
    have hfield := eq_of_beq hw.2.2
    unfold fieldOr
    rw [hfield]
    rfl
  · intro p hp o ho
    simp only [getAllBlogs, Response.dataObjects, List.mem_map] at ho
    obtain ⟨r, hr, rfl⟩ := ho
    have hw := (mem_findMany _ _ _ _ _ r hr).2
    unfold blogListWhere at hw
    rw [hp] at hw
    simp only [Bool.and_eq_true] at hw
    exact hingListItem _ r rfl "publie" p (by decide) hw.2

/-- Witness for the amended claim C1 at a concrete store and filter values. -/
theorem boolean_filters_literal_true_comparison_witness :
    lookupField (recordJson exIngredient) "allergene" = some (.jbool ("true" == "true")) ∧
    lookupField (recordJson exIngredient) "bio" = some (.jbool ("false" == "true")) :=
  ⟨(boolean_filters_literal_true_comparison 1 10 exIngredientStore
      none (some "false") (some "true") none none none none none none).2.1
      "true" rfl (recordJson exIngredient) (by decide),
   (boolean_filters_literal_true_comparison 1 10 exIngredientStore
      none (some "false") (some "true") none none none none none none).1
      "false" rfl (recordJson exIngredient) (by decide)⟩

/-- Counterexample to claim C2: the same otherwise-valid ingredient payload
succeeds without the unknown key `inconnu` (201) and fails validation with it
(400), so unknown fields are not ignored. -/
theorem unknown_field_rejected_concrete :
    (createIngredient exIngredientBody "i9" 9 []).1.status = 201 ∧
    (createIngredient exIngredientBodyUnknown "i9" 9 []).1.status = 400 := by decide

/-- Claim C2 (amended): the schema validator rejects unknown fields (the Joi
default `allowUnknown: false`): a payload containing a key outside the
field-rule set of the resource fails validation and the operation returns a 400,
leaving the store unchanged. -/
theorem unknown_fields_rejected (body : JObject) (s : Store) (newId id : String)
    (now : Nat) (k : String) (v : JValue) (hmem : (k, v) ∈ body) :
    ((∀ ru ∈ ingredientSchema, ru.key ≠ k) →
      (createIngredient body newId now s).1.status = 400 ∧
      (createIngredient body newId now s).2 = s) ∧
    ((∀ ru ∈ produitSchema, ru.key ≠ k) →
      (createProduit body newId now s).1.status = 400 ∧
      (createProduit body newId now s).2 = s) ∧
    (id ≠ "" → (∀ ru ∈ updateProduitSchema, ru.key ≠ k) →
      (updateProduit id body s).1.status = 400 ∧
      (updateProduit id body s).2 = s) := by
  refine ⟨?_, ?_, ?_⟩
  · intro hunk
    obtain ⟨e, he⟩ := joiValidate_error_of_unknown ingredientSchema body k v hmem hunk
    simp [createIngredient, he]
  · intro hunk
    obtain ⟨e, he⟩ := joiValidate_error_of_unknown produitSchema body k v hmem hunk
    simp [createProduit, he]
  · intro hid hunk
    obtain ⟨e, he⟩ := joiValidate_error_of_unknown updateProduitSchema body k v hmem hunk
    simp [updateProduit, isEmpty_false_of_ne id hid, he]

/-- Witness for the amended claim C2 at a concrete payload with an unknown key. -/
theorem unknown_fields_rejected_witness :
    ((createIngredient exIngredientBodyUnknown "i9" 9 []).1.status = 400 ∧
      (createIngredient exIngredientBodyUnknown "i9" 9 []).2 = []) ∧
    ((createProduit exIngredientBodyUnknown "p9" 9 []).1.status = 400 ∧
      (createProduit exIngredientBodyUnknown "p9" 9 []).2 = []) ∧
    ((updateProduit "p1" exIngredientBodyUnknown []).1.status = 400 ∧
      (updateProduit "p1" exIngredientBodyUnknown []).2 = []) :=
  ⟨(unknown_fields_rejected exIngredientBodyUnknown [] "i9" "p1" 9
      "inconnu" (.jstr "x") (by decide)).1 (by decide),
   (unknown_fields_rejected exIngredientBodyUnknown [] "p9" "p1" 9
      "inconnu" (.jstr "x") (by decide)).2.1 (by decide),
   (unknown_fields_rejected exIngredientBodyUnknown [] "i9" "p1" 9
      "inconnu" (.jstr "x") (by decide)).2.2 (by decide) (by decide)⟩

/-- Counterexample to claim C3: an empty identifier yields a 400
missing-identifier response, not a 404 not-found response. -/
theorem empty_id_yields_400_not_404 :
    (getProduitById "" exProduitStore).status = 400 ∧
    (getProduitById "" exProduitStore).status ≠ 404 := by decide

/-- Claim C3 (amended): on a single-record read an absent (empty) identifier
yields a 400 missing-identifier response — not the 404 not-found response —
produced before any store lookup (the response is independent of the store),
while a nonempty identifier matching no record yields the 404 not-found
response. -/
theorem empty_id_and_missing_record_responses (id : String) (s s2 : Store) :
    (getProduitById "" s = ⟨400, .err "ID du produit requis"⟩) ∧
    (getProduitById "" s = getProduitById "" s2) ∧
    (id ≠ "" → findFirstWhere s (fun r => r.id == id) = none →
      getProduitById id s = ⟨404, .err "Produit non trouvé"⟩) ∧
    (getIngredientById "" s = ⟨400, .err "ID de l\x27ingrédient requis"⟩) ∧
    (id ≠ "" → findFirstWhere s (fun r => r.id == id) = none →
      getIngredientById id s = ⟨404, .err "Ingrédient non trouvé"⟩) := by
  refine ⟨rfl, rfl, ?_, rfl, ?_⟩
  · intro hid hf
    simp [getProduitById, isEmpty_false_of_ne id hid, hf]
  · intro hid hf
    simp [getIngredientById, isEmpty_false_of_ne id hid, hf]

/-- Witness for the amended claim C3 at a concrete store and identifier. -/
theorem empty_id_and_missing_record_responses_witness :
    getProduitById "zzz" exProduitStore = ⟨404, .err "Produit non trouvé"⟩ ∧
    getIngredientById "zzz" exIngredientStore = ⟨404, .err "Ingrédient non trouvé"⟩ :=
  ⟨(empty_id_and_missing_record_responses "zzz" exProduitStore []).2.2.1
      (by decide) (by decide),
   (empty_id_and_missing_record_responses "zzz" exIngredientStore []).2.2.2.2
      (by decide) (by decide)⟩

/-- Claim C4: every single-record read, update and delete answers 400 when no
identifier is given and 404 when a nonempty identifier matches no record (for
updates, once the payload passes validation); the two cases are distinguished. -/
theorem missing_id_vs_not_found_distinguished (id : String) (body v : JObject)
    (s : Store) :
    ((getProduitById "" s).status = 400) ∧
    (id ≠ "" → findFirstWhere s (fun r => r.id == id) = none →
      (getProduitById id s).status = 404) ∧
    ((getIngredientById "" s).status = 400) ∧
    (id ≠ "" → findFirstWhere s (fun r => r.id == id) = none →
      (getIngredientById id s).status = 404) ∧
    ((getUtilisateurById "" s).status = 400) ∧
    (id ≠ "" → findFirstWhere s (fun r => r.id == id) = none →
      (getUtilisateurById id s).status = 404) ∧
    ((getBlogById "" s).status = 400) ∧
    (id ≠ "" → findFirstWhere s (fun r => r.id == id) = none →
      (getBlogById id s).status = 404) ∧
    ((updateProduit "" body s).1.status = 400) ∧
    (id ≠ "" → joiValidate updateProduitSchema body = .ok v →
      findFirstWhere s (fun r => r.id == id) = none →
      (updateProduit id body s).1.status = 404) ∧
    ((updateIngredient "" body s).1.status = 400) ∧
    (id ≠ "" → joiValidate updateIngredientSchema body = .ok v →
      findFirstWhere s (fun r => r.id == id) = none →
      (updateIngredient id body s).1.status = 404) ∧
    ((updateUtilisateur "" body s).1.status = 400) ∧
    (id ≠ "" → joiValidate updateUtilisateurSchema body = .ok v →
      findFirstWhere s (fun r => r.id == id) = none →
      (updateUtilisateur id body s).1.status = 404) ∧
    ((updateBlog "" body s).1.status = 400) ∧
    (id ≠ "" → joiValidate updateBlogSchema body = .ok v →
      findFirstWhere s (fun r => r.id == id) = none →
      (updateBlog id body s).1.status = 404) ∧
    ((deleteProduit "" s).1.status = 400) ∧
    (id ≠ "" → findFirstWhere s (fun r => r.id == id) = none →
      (deleteProduit id s).1.status = 404) ∧
    ((deleteIngredient "" s).1.status = 400) ∧
    (id ≠ "" → findFirstWhere s (fun r => r.id == id) = none →
      (deleteIngredient id s).1.status = 404) ∧
    ((deleteUtilisateur "" s).1.status = 400) ∧
    (id ≠ "" → findFirstWhere s (fun r => r.id == id) = none →
      (deleteUtilisateur id s).1.status = 404) ∧
    ((deleteBlog "" s).1.status = 400) ∧
    (id ≠ "" → findFirstWhere s (fun r => r.id == id) = none →
      (deleteBlog id s).1.status = 404) := by
  refine ⟨rfl, ?_, rfl, ?_, rfl, ?_, rfl, ?_, rfl, ?_, rfl, ?_, rfl, ?_, rfl, ?_,
          rfl, ?_, rfl, ?_, rfl, ?_, rfl, ?_⟩
  · intro hid hf; simp [getProduitById, isEmpty_false_of_ne id hid, hf]
  · intro hid hf; simp [getIngredientById, isEmpty_false_of_ne id hid, hf]
  · intro hid hf; simp [getUtilisateurById, isEmpty_false_of_ne id hid, hf]
  · intro hid hf; simp [getBlogById, isEmpty_false_of_ne id hid, hf]
  · intro hid hval hf
    simp [updateProduit, isEmpty_false_of_ne id hid, hval, hf]
  · intro hid hval hf
    simp [updateIngredient, isEmpty_false_of_ne id hid, hval, hf]
  · intro hid hval hf
    simp [updateUtilisateur, isEmpty_false_of_ne id hid, hval, hf]
  · intro hid hval hf
    simp [updateBlog, isEmpty_false_of_ne id hid, hval, hf]
  · intro hid hf; simp [deleteProduit, isEmpty_false_of_ne id hid, hf]
  · intro hid hf; simp [deleteIngredient, isEmpty_false_of_ne id hid, hf]
  · intro hid hf; simp [deleteUtilisateur, isEmpty_false_of_ne id hid, hf]
  · intro hid hf; simp [deleteBlog, isEmpty_false_of_ne id hid, hf]

/-- Witness for claim C4 at a concrete identifier, empty body and empty store. -/
theorem missing_id_vs_not_found_distinguished_witness :
    (getProduitById "zzz" []).status = 404 ∧
    (updateProduit "zzz" [] []).1.status = 404 ∧
    (deleteBlog "zzz" []).1.status = 404 :=
  ⟨(missing_id_vs_not_found_distinguished "zzz" [] [] []).2.1 (by decide) (by decide),
   (missing_id_vs_not_found_distinguished "zzz" [] [] []).2.2.2.2.2.2.2.2.2.1
      (by decide) (by rfl) (by decide),
   (missing_id_vs_not_found_distinguished "zzz" [] [] []).2.2.2.2.2.2.2.2.2.2.2.2.2.2.2.2.2.2.2.2.2.2.2
      (by decide) (by decide)⟩

/-- Claim C5: for a successful paginated list query (`page ≥ 1`, `limit ≥ 1`)
the pagination block is `{page, limit, total, ceil(total/limit)}` with `total`
the number of matching records, and at most `limit` records are returned. -/
theorem pagination_block_correct (page limit : Nat) (s : Store)
    (categorie bio allergene origine : Option String) (yukaMin : Option Int)
    (prixMax : Option JNum) (hp : 1 ≤ page) (hl : 1 ≤ limit) :
    ((getAllProduits page limit categorie yukaMin prixMax s).paginationOf =
       some ⟨page, limit, countWhere s (produitListWhere categorie yukaMin prixMax),
             jsCeil (countWhere s (produitListWhere categorie yukaMin prixMax)) limit⟩) ∧
    jsCeil (countWhere s (produitListWhere categorie yukaMin prixMax)) limit =
      ⌈(countWhere s (produitListWhere categorie yukaMin prixMax) : ℚ) / (limit : ℚ)⌉₊ ∧
    (getAllProduits page limit categorie yukaMin prixMax s).dataObjects.length ≤ limit ∧
    ((getAllIngredients page limit bio allergene origine s).paginationOf =
       some ⟨page, limit, countWhere s (ingredientListWhere bio allergene origine),
             jsCeil (countWhere s (ingredientListWhere bio allergene origine)) limit⟩) ∧
    jsCeil (countWhere s (ingredientListWhere bio allergene origine)) limit =
      ⌈(countWhere s (ingredientListWhere bio allergene origine) : ℚ) / (limit : ℚ)⌉₊ ∧
    (getAllIngredients page limit bio allergene origine s).dataObjects.length ≤ limit := by
  refine ⟨rfl, jsCeil_eq_ceil _ limit hl, ?_, rfl, jsCeil_eq_ceil _ limit hl, ?_⟩
  · simp only [getAllProduits, Response.dataObjects, List.length_map]
    exact findMany_length_le s _ byCreatedDesc ((page - 1) * limit) limit
  · simp only [getAllIngredients, Response.dataObjects, List.length_map]
    exact findMany_length_le s _ byNomAsc ((page - 1) * limit) limit

/-- Witness for claim C5 at a concrete store and default paging values. -/
theorem pagination_block_correct_witness :
    (getAllIngredients 1 10 none none none exIngredientStore).paginationOf =
      some ⟨1, 10, countWhere exIngredientStore (ingredientListWhere none none none),
            jsCeil (countWhere exIngredientStore (ingredientListWhere none none none)) 10⟩ ∧
    (getAllProduits 1 10 none none none exProduitStore).dataObjects.length ≤ 10 :=
  ⟨(pagination_block_correct 1 10 exIngredientStore none none none none none none
      (by decide) (by decide)).2.2.2.1,
   (pagination_block_correct 1 10 exProduitStore none none none none none none
      (by decide) (by decide)).2.2.1⟩

/-- Claim C6: a login whose email matches no user and a login whose email
matches but whose hash comparison fails produce identical responses (status
401 and the same body), while a login missing either field yields a 400. -/
theorem login_uniform_invalid_credentials (s : Store) (e1 p1 e2 p2 : String)
    (u : Record) (hsh : String) (mp me : Option String)
    (he1 : e1 ≠ "") (hp1 : p1 ≠ "") (he2 : e2 ≠ "") (hp2 : p2 ≠ "")
    (hfind1 : findFirstWhere s
       (fun r => lookupField r.fields "email" == some (.jstr e1)) = none)
    (hfind2 : findFirstWhere s
       (fun r => lookupField r.fields "email" == some (.jstr e2)) = some u)
    (hpw : lookupField u.fields "motDePasse" = some (.jstr hsh))
    (hcmp : bcryptCompare p2 hsh = false) :
    login ⟨some e1, some p1⟩ s = login ⟨some e2, some p2⟩ s ∧
    (login ⟨some e1, some p1⟩ s).status = 401 ∧
    (login ⟨some e1, some p1⟩ s).body = .err "Email ou mot de passe incorrect" ∧
    (login ⟨none, mp⟩ s).status = 400 ∧
    (login ⟨me, none⟩ s).status = 400 := by
  have h1 : login ⟨some e1, some p1⟩ s = ⟨401, .err "Email ou mot de passe incorrect"⟩ := by
    simp [login, isEmpty_false_of_ne e1 he1, isEmpty_false_of_ne p1 hp1, hfind1]
  have h2 : login ⟨some e2, some p2⟩ s = ⟨401, .err "Email ou mot de passe incorrect"⟩ := by
    simp [login, isEmpty_false_of_ne e2 he2, isEmpty_false_of_ne p2 hp2, hfind2, hpw, hcmp]
  refine ⟨h1.trans h2.symm, by rw [h1], by rw [h1], ?_, ?_⟩
  · cases mp <;> rfl
  · cases me <;> rfl

/-- Witness for claim C6 at a concrete user store: an unknown email and a
wrong credential receive identical 401 responses. -/
theorem login_uniform_invalid_credentials_witness :
    login ⟨some "nobody@cynova.fr", some "whateverpw"⟩ exUtilisateurStore =
      login ⟨some "alice@cynova.fr", some "wrongpassw"⟩ exUtilisateurStore ∧
    (login ⟨some "nobody@cynova.fr", some "whateverpw"⟩ exUtilisateurStore).status = 401 :=
  ⟨(login_uniform_invalid_credentials exUtilisateurStore
      "nobody@cynova.fr" "whateverpw" "alice@cynova.fr" "wrongpassw"
      exUtilisateur (bcryptHash "supersecret") none none
      (by decide) (by decide) (by decide) (by decide)
      (by decide) (by decide) (by decide) (by decide)).1,
   (login_uniform_invalid_credentials exUtilisateurStore
      "nobody@cynova.fr" "whateverpw" "alice@cynova.fr" "wrongpassw"
      exUtilisateur (bcryptHash "supersecret") none none
      (by decide) (by decide) (by decide) (by decide)
      (by decide) (by decide) (by decide) (by decide)).2.1⟩

/-- Claim C7: no successful user-operation response carries the stored
`motDePasse` hash — the login success body omits it and every other user
response is built from the `select` projection that excludes it. -/
theorem no_password_in_responses (page limit : Nat) (s : Store) (id newId : String)
    (body : JObject) (now : Nat) (q role newsletter : Option String)
    (req : LoginRequest) :
    (∀ o ∈ (getAllUtilisateurs page limit role newsletter s).dataObjects,
       lookupField o "motDePasse" = none) ∧
    (∀ o ∈ (getUtilisateurById id s).dataObjects,
       lookupField o "motDePasse" = none) ∧
    (∀ o ∈ (createUtilisateur body newId now s).1.dataObjects,
       lookupField o "motDePasse" = none) ∧
    (∀ o ∈ (updateUtilisateur id body s).1.dataObjects,
       lookupField o "motDePasse" = none) ∧
    (∀ o ∈ (searchUtilisateurs q role newsletter s).dataObjects,
       lookupField o "motDePasse" = none) ∧
    (∀ o ∈ (login req s).dataObjects,
       lookupField o "motDePasse" = none) := by
  refine ⟨?_, ?_, ?_, ?_, ?_, ?_⟩
  · intro o ho
    simp only [getAllUtilisateurs, Response.dataObjects, List.mem_map] at ho
    obtain ⟨r, hr, rfl⟩ := ho
    exact selectUtilisateur_no_password r
  · intro o ho
    by_cases hid : id.isEmpty = true
    · simp [getUtilisateurById, hid, Response.dataObjects] at ho
    · cases hf : findFirstWhere s (fun r => r.id == id) with
      | none => simp [getUtilisateurById, hid, hf, Response.dataObjects] at ho
      | some r =>
        simp [getUtilisateurById, hid, hf, Response.dataObjects] at ho
        subst ho
        exact selectUtilisateur_no_password r
  · intro o ho
    cases hv : joiValidate utilisateurSchema body with
    | error e => simp [createUtilisateur, hv, Response.dataObjects] at ho
    | ok value =>
      cases hf : findFirstWhere s
          (fun r => lookupField r.fields "email" == lookupField value "email") with
      | some r => simp [createUtilisateur, hv, hf, Response.dataObjects] at ho
      | none =>
        simp [createUtilisateur, hv, hf, Response.dataObjects] at ho
        subst ho
        exact selectUtilisateur_no_password _
  · intro o ho
    by_cases hid : id.isEmpty = true
    · simp [updateUtilisateur, hid, Response.dataObjects] at ho
    · cases hv : joiValidate updateUtilisateurSchema body with
      | error e => simp [updateUtilisateur, hid, hv, Response.dataObjects] at ho
      | ok value =>
        cases hf : findFirstWhere s (fun r => r.id == id) with
        | none => simp [updateUtilisateur, hid, hv, hf, Response.dataObjects] at ho
        | some r =>
          simp [updateUtilisateur, hid, hv, hf, Response.dataObjects] at ho
          subst ho
          exact selectUtilisateur_no_password _
  · intro o ho
    simp only [searchUtilisateurs, Response.dataObjects, List.mem_map] at ho
    obtain ⟨r, hr, rfl⟩ := ho
    exact selectUtilisateur_no_password r
  · intro o ho
    cases req with
    | mk email mdp =>
      cases email with
      | none => simp [login, Response.dataObjects] at ho
      | some e =>
        cases mdp with
        | none => simp [login, Response.dataObjects] at ho
        | some p =>
          by_cases hep : (e.isEmpty || p.isEmpty) = true
          · simp [login, hep, Response.dataObjects] at ho
          · cases hf : findFirstWhere s
                (fun r => lookupField r.fields "email" == some (.jstr e)) with
            | none => simp [login, hep, hf, Response.dataObjects] at ho
            | some u =>
              cases hpw : lookupField u.fields "motDePasse" with
              | none => simp [login, hep, hf, hpw, Response.dataObjects] at ho
              | some pv =>
                cases pv with
                | jstr hsh =>
                  by_cases hc : bcryptCompare p hsh = true
                  · simp [login, hep, hf, hpw, hc, Response.dataObjects] at ho
                    subst ho
                    rw [lookupField_cons_ne _ _ _ _ (by decide)]
                    exact lookupField_filter_password u.fields
                  · simp [login, hep, hf, hpw, hc, Response.dataObjects] at ho
                | jnull => simp [login, hep, hf, hpw, Response.dataObjects] at ho
                | jnum n => simp [login, hep, hf, hpw, Response.dataObjects] at ho
                | jbool b => simp [login, hep, hf, hpw, Response.dataObjects] at ho

/-- Witness for claim C7: a concrete read-by-id response and a concrete
successful login response both omit the stored hash. -/
theorem no_password_in_responses_witness :
    lookupField (selectUtilisateur exUtilisateur) "motDePasse" = none ∧
    (∀ o ∈ (login ⟨some "alice@cynova.fr", some "supersecret"⟩ exUtilisateurStore).dataObjects,
       lookupField o "motDePasse" = none) :=
  ⟨(no_password_in_responses 1 10 exUtilisateurStore "u1" "u9" [] 9
      none none none ⟨none, none⟩).2.1
      (selectUtilisateur exUtilisateur) (by decide),
   (no_password_in_responses 1 10 exUtilisateurStore "u1" "u9" [] 9
      none none none ⟨some "alice@cynova.fr", some "supersecret"⟩).2.2.2.2.2⟩

/-- Claim C8: creating an ingredient (resp. user) whose validated unique field
`nom` (resp. `email`) equals that of a stored record answers the 400
uniqueness-conflict — never a 500 — and leaves the store unchanged. -/
theorem duplicate_create_conflict_400 (body : JObject) (newId : String) (now : Nat)
    (s : Store) (v : JObject) :
    (joiValidate ingredientSchema body = .ok v →
     (∃ r ∈ s, lookupField r.fields "nom" = lookupField v "nom") →
     (createIngredient body newId now s).1.status = 400 ∧
     (createIngredient body newId now s).2 = s) ∧
    (joiValidate utilisateurSchema body = .ok v →
     (∃ r ∈ s, lookupField r.fields "email" = lookupField v "email") →
     (createUtilisateur body newId now s).1.status = 400 ∧
     (createUtilisateur body newId now s).2 = s) := by
  constructor
  · intro hok hdup
    have hfi : (findFirstWhere s
        (fun r => lookupField r.fields "nom" == lookupField v "nom")).isSome := by
      unfold findFirstWhere
      rw [List.find?_isSome]
      obtain ⟨r, hr, he⟩ := hdup
      exact ⟨r, hr, by simp [he]⟩
    obtain ⟨r0, hr0⟩ := Option.isSome_iff_exists.mp hfi
    simp [createIngredient, hok, hr0]
  · intro hok hdup
    have hfi : (findFirstWhere s
        (fun r => lookupField r.fields "email" == lookupField v "email")).isSome := by
      unfold findFirstWhere
      rw [List.find?_isSome]
      obtain ⟨r, hr, he⟩ := hdup
      exact ⟨r, hr, by simp [he]⟩
    obtain ⟨r0, hr0⟩ := Option.isSome_iff_exists.mp hfi
    simp [createUtilisateur, hok, hr0]

/-- Witness for claim C8 at concrete duplicate creates. -/
theorem duplicate_create_conflict_400_witness :
    ((createIngredient exIngredientDupBody "i9" 9 exIngredientStore).1.status = 400 ∧
     (createIngredient exIngredientDupBody "i9" 9 exIngredientStore).2 = exIngredientStore) ∧
    ((createUtilisateur exUtilisateurBody "u9" 9 exUtilisateurStore).1.status = 400 ∧
     (createUtilisateur exUtilisateurBody "u9" 9 exUtilisateurStore).2 = exUtilisateurStore) :=
  ⟨(duplicate_create_conflict_400 exIngredientDupBody "i9" 9 exIngredientStore
      exIngredientDupValue).1 (by rfl) (by decide),
   (duplicate_create_conflict_400 exUtilisateurBody "u9" 9 exUtilisateurStore
      exUtilisateurValue).2 (by rfl) (by decide)⟩

/-- Claim C9: defaulted fields are echoed on create exactly as specified — an
ingredient created without `bio` has `bio = false`, a product created without
`actif` has `actif = true`, a blog created without `auteur` has the default
author — and the update schemas apply no default to an absent field. -/
theorem defaults_applied_only_on_create
    (bodyI bodyP bodyB uI uP uB : JObject) (newId : String) (now : Nat) (s : Store)
    (vI vP vB wI wP wB : JObject) :
    (joiValidate ingredientSchema bodyI = .ok vI →
     lookupField bodyI "bio" = none →
     findFirstWhere s (fun r => lookupField r.fields "nom" == lookupField vI "nom") = none →
     (createIngredient bodyI newId now s).1.status = 201 ∧
     ∀ o ∈ (createIngredient bodyI newId now s).1.dataObjects,
       lookupField o "bio" = some (.jbool false)) ∧
    (joiValidate produitSchema bodyP = .ok vP →
     lookupField bodyP "actif" = none →
     (createProduit bodyP newId now s).1.status = 201 ∧
     ∀ o ∈ (createProduit bodyP newId now s).1.dataObjects,
       lookupField o "actif" = some (.jbool true)) ∧
    (joiValidate blogSchema bodyB = .ok vB →
     lookupField bodyB "auteur" = none →
     (createBlog bodyB newId now s).1.status = 201 ∧
     ∀ o ∈ (createBlog bodyB newId now s).1.dataObjects,
       lookupField o "auteur" = some (.jstr "Équipe Cynova")) ∧
    (joiValidate updateIngredientSchema uI = .ok wI →
     lookupField uI "bio" = none → lookupField wI "bio" = none) ∧
    (joiValidate updateProduitSchema uP = .ok wP →
     lookupField uP "actif" = none → lookupField wP "actif" = none) ∧
    (joiValidate updateBlogSchema uB = .ok wB →
     lookupField uB "auteur" = none → lookupField wB "auteur" = none) := by
  refine ⟨?_, ?_, ?_, ?_, ?_, ?_⟩
  · intro hok habs hdup
    have hval := validateRules_ok_default ingredientSchema bodyI vI "bio" (.jbool false)
      (joiValidate_ok _ _ _ hok) habs (by rfl)
    constructor
    · simp [createIngredient, hok, hdup]
    · intro o ho
      simp [createIngredient, hok, hdup, Response.dataObjects] at ho
      subst ho
      rw [lookupField_recordJson _ _ (by decide)]
      exact hval
  · intro hok habs
    have hval := validateRules_ok_default produitSchema bodyP vP "actif" (.jbool true)
      (joiValidate_ok _ _ _ hok) habs (by rfl)
    constructor
    · simp [createProduit, hok]
    · intro o ho
      simp [createProduit, hok, Response.dataObjects] at ho
      subst ho
      rw [lookupField_recordJson _ _ (by decide)]
      exact hval
  · intro hok habs
    have hval := validateRules_ok_default blogSchema bodyB vB "auteur" (.jstr "Équipe Cynova")
      (joiValidate_ok _ _ _ hok) habs (by rfl)
    constructor
    · simp [createBlog, hok]
    · intro o ho
      simp [createBlog, hok, Response.dataObjects] at ho
      subst ho
      rw [lookupField_recordJson _ _ (by decide)]
      exact hval
  · intro hok habs
    exact validateRules_ok_no_default updateIngredientSchema uI wI "bio"
      (joiValidate_ok _ _ _ hok) habs (by decide)
  · intro hok habs
    exact validateRules_ok_no_default updateProduitSchema uP wP "actif"
      (joiValidate_ok _ _ _ hok) habs (by decide)
  · intro hok habs
    exact validateRules_ok_no_default updateBlogSchema uB wB "auteur"
      (joiValidate_ok _ _ _ hok) habs (by decide)

/-- Witness for claim C9 at concrete creates without the defaulted fields and
empty update payloads. -/
theorem defaults_applied_only_on_create_witness :
    (createIngredient exIngredientBody "i9" 9 []).1.status = 201 ∧
    (∀ o ∈ (createIngredient exIngredientBody "i9" 9 []).1.dataObjects,
       lookupField o "bio" = some (.jbool false)) ∧
    (createProduit exProduitBody "p9" 9 []).1.status = 201 ∧
    (∀ o ∈ (createProduit exProduitBody "p9" 9 []).1.dataObjects,
       lookupField o "actif" = some (.jbool true)) ∧
    (createBlog exBlogBody "b9" 9 []).1.status = 201 ∧
    (∀ o ∈ (createBlog exBlogBody "b9" 9 []).1.dataObjects,
       lookupField o "auteur" = some (.jstr "Équipe Cynova")) ∧
    lookupField ([] : JObject) "bio" = none := by
  refine ⟨?_, ?_, ?_, ?_, ?_, ?_, ?_⟩
  · exact ((defaults_applied_only_on_create exIngredientBody exProduitBody exBlogBody
      [] [] [] "i9" 9 [] exIngredientValue exProduitValue exBlogValue [] [] []).1
      (by rfl) (by rfl) (by rfl)).1
  · exact ((defaults_applied_only_on_create exIngredientBody exProduitBody exBlogBody
      [] [] [] "i9" 9 [] exIngredientValue exProduitValue exBlogValue [] [] []).1
      (by rfl) (by rfl) (by rfl)).2
  · exact ((defaults_applied_only_on_create exIngredientBody exProduitBody exBlogBody
      [] [] [] "p9" 9 [] exIngredientValue exProduitValue exBlogValue [] [] []).2.1
      (by rfl) (by rfl)).1
  · exact ((defaults_applied_only_on_create exIngredientBody exProduitBody exBlogBody
      [] [] [] "p9" 9 [] exIngredientValue exProduitValue exBlogValue [] [] []).2.1
      (by rfl) (by rfl)).2
  · exact ((defaults_applied_only_on_create exIngredientBody exProduitBody exBlogBody
      [] [] [] "b9" 9 [] exIngredientValue exProduitValue exBlogValue [] [] []).2.2.1
      (by rfl) (by rfl)).1
  · exact ((defaults_applied_only_on_create exIngredientBody exProduitBody exBlogBody
      [] [] [] "b9" 9 [] exIngredientValue exProduitValue exBlogValue [] [] []).2.2.1
      (by rfl) (by rfl)).2
  · exact (defaults_applied_only_on_create exIngredientBody exProduitBody exBlogBody
      [] [] [] "i9" 9 [] exIngredientValue exProduitValue exBlogValue [] [] []).2.2.2.1
      (by rfl) (by rfl)

/-- Claim C10: the product list and product search operations only ever return
records with `actif = true`, whatever the query parameters are — both `where`
objects are seeded with `actif: true` and no parameter can lift it. -/
theorem list_search_only_active_products (page limit : Nat)
    (categorie q : Option String) (yukaMin : Option Int) (prixMax prixMin : Option JNum)
    (s : Store) :
    (∀ o ∈ (getAllProduits page limit categorie yukaMin prixMax s).dataObjects,
       lookupField o "actif" = some (.jbool true)) ∧
    (∀ o ∈ (searchProduits q categorie yukaMin prixMax prixMin s).dataObjects,
       lookupField o "actif" = some (.jbool true)) := by
  constructor
  · intro o ho
    simp only [getAllProduits, Response.dataObjects, List.mem_map] at ho
    obtain ⟨r, hr, rfl⟩ := ho
    have hw := (mem_findMany _ _ _ _ _ r hr).2
    unfold produitListWhere at hw
    simp only [Bool.and_eq_true] at hw
    rw [lookupField_recordJson _ _ (by decide)]
    exact eq_of_beq hw.1.1.1
  · intro o ho
    simp only [searchProduits, Response.dataObjects, List.mem_map] at ho
    obtain ⟨r, hr, rfl⟩ := ho
    have hr2 : r ∈ List.filter (produitSearchWhere q categorie yukaMin prixMax prixMin) s :=
      (mem_sortBy _ r _).mp hr
    have hw := (List.mem_filter.mp hr2).2
    unfold produitSearchWhere at hw
    simp only [Bool.and_eq_true] at hw
    rw [lookupField_recordJson _ _ (by decide)]
    exact eq_of_beq hw.1.1.1.1.1

/-- Witness for claim C10 at a concrete store whose only product is active. -/
theorem list_search_only_active_products_witness :
    lookupField (recordJson exProduit) "actif" = some (.jbool true) ∧
    (∀ o ∈ (searchProduits none none none none none exProduitStore).dataObjects,
       lookupField o "actif" = some (.jbool true)) :=
  ⟨(list_search_only_active_products 1 10 none none none none none exProduitStore).1
      (recordJson exProduit) (by decide),
   (list_search_only_active_products 1 10 none none none none none exProduitStore).2⟩

end Cynova
